import Mathlib

/-!
Shallow embedding of the HubSpot pipeline reporter
(hubspot_reporter.py, scheduler.py).

The embedding models:
* get_pipeline_deals — the cursor-paginated deal fetch loop, in two
  views: a trace view (fetchLoop) consuming a finite list of API
  responses, used for functional claims, and a deterministic-API view
  (runF, fuel-indexed) used for termination claims;
* export_to_excel — the pure part of the spreadsheet export: sheet
  title, header row, data rows and column widths (Sheet);
* main / scheduled_job — the control flow of the main run and the
  scheduler fault boundary, with the Python exception hierarchy
  modelled by PyError (SystemExit, raised by sys.exit, derives from
  BaseException but not from Exception, so an except-Exception clause
  does not catch it).
-/

/-- A HubSpot deal record: its properties dictionary, modelled as an
association list from property name to (string) value.  A key that is
absent models a property missing from the response. -/
structure Deal where
  properties : List (String × String)
deriving Repr, DecidableEq

/-- One JSON page of the deals endpoint: the results array and the
paging metadata.  paging = none models a response without a
paging-next entry; paging = some a models "next" being present with
after cursor a (a = none when the after key is absent or null). -/
structure Page where
  results : List Deal
  paging : Option (Option String)
deriving Repr, DecidableEq

/-- One observed API interaction in the trace view: either the request
raised a RequestException (failure), or it succeeded with a page body. -/
inductive ApiResponse where
  | failure : ApiResponse
  | success : Page → ApiResponse
deriving Repr, DecidableEq

/-- The query parameters of one GET request issued by
get_pipeline_deals: the properties string, the limit, and the after
cursor entry of the params dict (absent on the first request). -/
structure Request where
  properties : String
  limit : Nat
  after : Option String
deriving Repr, DecidableEq

/-- The literal properties parameter from the source:
"dealname,amount,dealstage,closedate,pipeline,createdate". -/
def dealProperties : String := "dealname,amount,dealstage,closedate,pipeline,createdate"

/-- The comma-separated components of dealProperties, in order (see
dealProperties_eq below). -/
def propertyNames : List String :=
  ["dealname", "amount", "dealstage", "closedate", "pipeline", "createdate"]

/-- The request built by the loop body: fixed properties and
limit = 100, plus the current after entry of the params dict. -/
def mkRequest (pa : Option String) : Request :=
  ⟨dealProperties, 100, pa⟩

/-- Loop state of get_pipeline_deals: paramsAfter is the after entry
currently stored in the params dict (it persists once set), after is
the Python variable of that name, and deals is the accumulator. -/
structure FetchState where
  paramsAfter : Option String
  after : Option String
  deals : List Deal
deriving Repr, DecidableEq

/-- Python truthiness of the optional after string: None and the empty
string are falsy. -/
def truthy : Option String → Bool
  | none => false
  | some s => !(s == "")

/-- The after entry of the params dict at request time: the loop body
stores the variable into the dict exactly when it is truthy, before
issuing the GET. -/
def reqAfter (s : FetchState) : Option String :=
  if truthy s.after then s.after else s.paramsAfter

/-- Client-side filter from the loop body: the pipeline entry of the
properties of the deal equals the target pipeline id. -/
def matchesPipeline (pid : String) (d : Deal) : Bool :=
  d.properties.lookup "pipeline" == some pid

/-- How a run of get_pipeline_deals ended: completed ds is the normal
return of the accumulator; failed is the except-RequestException
branch, which prints the error and then returns the empty list. -/
inductive FetchOutcome where
  | completed : List Deal → FetchOutcome
  | failed : FetchOutcome
deriving Repr, DecidableEq

/-- The list value actually returned to the caller for each outcome. -/
def fetchReturn : FetchOutcome → List Deal
  | .completed ds => ds
  | .failed => []

/-- The after cursor of the paging-next entry of a page, defaulting to
none when paging has no next entry (only used after that case is
excluded). -/
def pageAfter (p : Page) : Option String :=
  match p.paging with
  | some a => a
  | none => none

/-- Trace view of the while-True loop of get_pipeline_deals: the
responses to the successive GET requests are given as a list, consumed
in order.  Returns the requests issued together with the outcome; the
outcome is none if the response list is exhausted before the loop
finishes.  Each iteration updates the params dict (reqAfter), issues
the request, on failure returns the empty list (FetchOutcome.failed),
otherwise appends the deals matching the pipeline and continues exactly
when the paging metadata contains a next entry. -/
def fetchLoop (pid : String) : List ApiResponse → FetchState → List Request × Option FetchOutcome
  | [], _ => ([], none)
  | r :: rest, s =>
    let pa := reqAfter s
    let req := mkRequest pa
    match r with
    | .failure => ([req], some .failed)
    | .success page =>
      let deals' := s.deals ++ page.results.filter (matchesPipeline pid)
      match page.paging with
      | none => ([req], some (.completed deals'))
      | some a =>
        let out := fetchLoop pid rest ⟨pa, a, deals'⟩
        (req :: out.1, out.2)

/-- Initial loop state: no after param in the dict, the variable is
None, the accumulator is empty. -/
def initFS : FetchState := ⟨none, none, []⟩

/-- get_pipeline_deals(pipeline_id) in the trace view: run the
pagination loop from the initial state against the given response
trace. -/
def get_pipeline_deals (pid : String) (responses : List ApiResponse) :
    List Request × Option FetchOutcome :=
  fetchLoop pid responses initFS

/-- Deterministic-API view of the same loop: api maps the after
parameter of a request (the only varying part of the request) to the
page the server returns.  runF runs the loop with the given fuel; none
means the loop did not finish within that many iterations. -/
def runF (pid : String) (api : Option String → Page) : Nat → FetchState → Option (List Deal)
  | 0, _ => none
  | fuel + 1, s =>
    let pa := reqAfter s
    let page := api pa
    let deals' := s.deals ++ page.results.filter (matchesPipeline pid)
    match page.paging with
    | none => some deals'
    | some a => runF pid api fuel ⟨pa, a, deals'⟩

/-- One iteration of the loop in the deterministic-API view (the state
reached after processing the response to the current request). -/
def nextFS (pid : String) (api : Option String → Page) (s : FetchState) : FetchState :=
  let pa := reqAfter s
  let page := api pa
  ⟨pa, pageAfter page, s.deals ++ page.results.filter (matchesPipeline pid)⟩

/-- The loop state after n iterations in the deterministic-API view. -/
def iterFS (pid : String) (api : Option String → Page) : Nat → FetchState → FetchState
  | 0, s => s
  | n + 1, s => iterFS pid api n (nextFS pid api s)

/-- The five display properties read by export_to_excel, in column
order (the source lines writing columns 1 to 5 of each data row). -/
def fieldKeys : List String := ["dealname", "amount", "dealstage", "closedate", "createdate"]

/-- The fixed header row of the sheet. -/
def sheetHeaders : List String := ["Deal Name", "Amount", "Stage", "Close Date", "Created Date"]

/-- The data row written for one deal: for each of the five display
fields, the stored value, defaulting to the literal "N/A" when the key
is missing. -/
def dealRow (d : Deal) : List String :=
  fieldKeys.map (fun k => (d.properties.lookup k).getD "N/A")

/-- The pure content of the produced worksheet: its title, its rows
(row 1 is the header row), and the assigned column widths. -/
structure Sheet where
  title : String
  rows : List (List String)
  colWidths : List Nat
deriving Repr, DecidableEq

/-- Width assigned to column j: the auto-adjust loop computes a running
maximum (starting from 0) of the rendered length of every cell of the
column, header included, then assigns min of that maximum plus 2
and 50. -/
def colWidth (rows : List (List String)) (j : Nat) : Nat :=
  min ((rows.map (fun r => (r.getD j "").length)).foldl max 0 + 2) 50

/-- export_to_excel(pipeline_name, deals), pure part: sheet title is
the pipeline name truncated to its first 31 characters, the header row
is followed by one data row per deal in input order, and the five
column widths are auto-adjusted. -/
def export_to_excel (pipeline_name : String) (deals : List Deal) : Sheet :=
  let rows := sheetHeaders :: deals.map dealRow
  ⟨pipeline_name.take 31, rows, (List.range 5).map (colWidth rows)⟩

/-- A pipeline record as used by main: its id and label. -/
structure Pipeline where
  id : String
  label : String
deriving Repr, DecidableEq

/-- A raised Python error, tagged by where it sits in the exception
hierarchy: exception covers everything deriving from Exception
(RequestException, ValueError, OSError, ...); systemExit is the
SystemExit raised by sys.exit(code), which derives from BaseException
but NOT from Exception. -/
inductive PyError where
  | exception : String → PyError
  | systemExit : Nat → PyError
deriving Repr, DecidableEq

/-- Whether an except-Exception clause catches the error. -/
def isExceptionClass : PyError → Bool
  | .exception _ => true
  | .systemExit _ => false

/-- get_pipelines(): one GET; on RequestException (modelled by
resp = none) it prints the error and calls sys.exit(1), that is, it
raises SystemExit. -/
def get_pipelines (resp : Option (List Pipeline)) : Except PyError (List Pipeline) :=
  match resp with
  | some ps => .ok ps
  | none => .error (.systemExit 1)

/-- Observable outcome of the body of main: no pipelines found, no
deals found for the selected pipeline (a printed message, no export),
or an export of the produced sheet (one file written). -/
inductive MainOutcome where
  | noPipelines : MainOutcome
  | noDeals : String → MainOutcome
  | exported : Sheet → MainOutcome
deriving Repr, DecidableEq

/-- The environment one run of main executes against: the configured
API key, the response to the pipelines GET (none = request error), the
trace of responses to the deal GETs, and whether the workbook save
succeeds. -/
structure RunEnv where
  apiKey : Option String
  pipelinesResp : Option (List Pipeline)
  dealResponses : List ApiResponse
  saveOk : Bool
deriving Repr, DecidableEq

/-- The body of main() (inside its try): construct the reporter (a
missing key raises ValueError), list pipelines, pick the first, fetch
its deals, and export exactly when the deal list is non-empty; a
failing workbook save raises an OSError-like Exception.  Result none
means the deal-response trace was exhausted before the fetch loop
finished (the model gives no verdict there). -/
def main_body (env : RunEnv) : Option (Except PyError MainOutcome) :=
  match env.apiKey with
  | none => some (.error (.exception "HubSpot API key not found"))
  | some _ =>
    match get_pipelines env.pipelinesResp with
    | .error e => some (.error e)
    | .ok [] => some (.ok .noPipelines)
    | .ok (p :: _) =>
      match (get_pipeline_deals p.id env.dealResponses).2 with
      | none => none
      | some out =>
        match fetchReturn out with
        | [] => some (.ok (.noDeals p.label))
        | d :: ds =>
          if env.saveOk then some (.ok (.exported (export_to_excel p.label (d :: ds))))
          else some (.error (.exception "save failed"))

/-- main() with its try/except-Exception wrapper: an error of class
Exception is printed and converted to sys.exit(1), that is, to
SystemExit; a SystemExit raised inside the body propagates unchanged. -/
def py_main (env : RunEnv) : Option (Except PyError MainOutcome) :=
  match main_body env with
  | none => none
  | some (.ok r) => some (.ok r)
  | some (.error e) =>
    some (.error (if isExceptionClass e then .systemExit 1 else e))

/-- scheduled_job(): runs main inside try/except-Exception; an error of
class Exception is logged and swallowed (the scheduler loop continues),
any other raised error — in particular SystemExit — propagates out of
the job, through schedule.run_pending() and the while-True loop,
terminating the scheduler process.  So ok () means the scheduler
survives the tick; error e means the process dies. -/
def scheduled_job (env : RunEnv) : Option (Except PyError Unit) :=
  match py_main env with
  | none => none
  | some (.ok _) => some (.ok ())
  | some (.error e) =>
    if isExceptionClass e then some (.ok ()) else some (.error e)

/-- A sample deal belonging to pipeline "1", used in concrete
witnesses and counterexamples. -/
def dealAcme : Deal := ⟨[("pipeline", "1"), ("dealname", "Acme")]⟩

/-! ## Helper lemmas -/

/-- The properties string of every request is the comma-join of the six
property names. -/
theorem dealProperties_eq : dealProperties = String.intercalate "," propertyNames := rfl

/-- The rows of the exported sheet are the header row followed by one
data row per deal, in order. -/
theorem export_rows (pn : String) (deals : List Deal) :
    (export_to_excel pn deals).rows = sheetHeaders :: deals.map dealRow := rfl

/-- The column widths of the exported sheet. -/
theorem export_colWidths (pn : String) (deals : List Deal) :
    (export_to_excel pn deals).colWidths
      = (List.range 5).map (colWidth (sheetHeaders :: deals.map dealRow)) := rfl

/-- Every request issued by the pagination loop is built by mkRequest. -/
theorem fetchLoop_requests (pid : String) :
    ∀ (rs : List ApiResponse) (s : FetchState) (r : Request),
    r ∈ (fetchLoop pid rs s).1 → ∃ pa, r = mkRequest pa := by
  intro rs
  induction rs with
  | nil => intro s r hr; simp [fetchLoop] at hr
  | cons a rest ih =>
    intro s r hr
    match a with
    | .failure =>
      simp [fetchLoop] at hr
      exact ⟨reqAfter s, hr⟩
    | .success page =>
      rw [fetchLoop] at hr
      rcases hpg : page.paging with _ | c
      · simp [hpg] at hr
        exact ⟨reqAfter s, hr⟩
      · simp [hpg] at hr
        rcases hr with hr | hr
        · exact ⟨reqAfter s, hr⟩
        · exact ih _ r hr

/-- Core pagination lemma: on a trace of cursored pages followed by one
cursorless page, the loop issues one request per page, threading each
cursor into the after parameter of the next request, and completes with
the accumulator extended by the concatenation of the filtered results
of every page. -/
theorem fetchLoop_pages (pid : String) :
    ∀ (front : List Page) (last : Page) (s : FetchState),
    (∀ p ∈ front, ∃ c, p.paging = some (some c) ∧ c ≠ "") →
    last.paging = none →
    fetchLoop pid ((front ++ [last]).map ApiResponse.success) s
      = (mkRequest (reqAfter s) :: front.map (fun p => mkRequest (pageAfter p)),
         some (FetchOutcome.completed
           (s.deals ++ ((front ++ [last]).map
              (fun p => p.results.filter (matchesPipeline pid))).flatten))) := by
  intro front
  induction front with
  | nil =>
    intro last s _ hlast
    simp [fetchLoop, hlast]
  | cons p front ih =>
    intro last s hfront hlast
    obtain ⟨c, hc, hne⟩ := hfront p (List.mem_cons_self p front)
    have htr : truthy (some c) = true := by simp [truthy, hne]
    rw [List.cons_append, List.map_cons, fetchLoop]
    simp only [hc]
    rw [ih last _ (fun q hq => hfront q (List.mem_cons_of_mem p hq)) hlast]
    have hreq : reqAfter ⟨reqAfter s, some c, s.deals ++ p.results.filter (matchesPipeline pid)⟩
        = some c := by simp [reqAfter, htr]
    simp [hreq, pageAfter, hc, List.append_assoc]

/-- In the deterministic-API view, if the response after n iterations
carries no paging-next entry, the loop finishes within n + 1
iterations. -/
theorem runF_terminates (pid : String) (api : Option String → Page) :
    ∀ (n : Nat) (s : FetchState),
    (api (reqAfter (iterFS pid api n s))).paging = none →
    (runF pid api (n + 1) s).isSome = true := by
  intro n
  induction n with
  | zero =>
    intro s h
    rw [runF]
    simp only [iterFS] at h
    simp [h]
  | succ n ih =>
    intro s h
    rw [runF]
    rcases hpg : (api (reqAfter s)).paging with _ | a
    · simp [hpg]
    · simp only [hpg]
      have hnext : nextFS pid api s
          = ⟨reqAfter s, a, s.deals ++ (api (reqAfter s)).results.filter (matchesPipeline pid)⟩ := by
        simp [nextFS, pageAfter, hpg]
    -- the recursion target is exactly the next loop state
      have h' : (api (reqAfter (iterFS pid api n
          (⟨reqAfter s, a, s.deals ++ (api (reqAfter s)).results.filter (matchesPipeline pid)⟩ : FetchState)))).paging = none := by
        rw [← hnext]
        simpa [iterFS] using h
      exact ih _ h'

/-- In the deterministic-API view, once the current request draws a
response whose paging contains a next entry with no usable after token,
the loop never finishes, with any amount of fuel. -/
theorem runF_stuck_aux (pid : String) (api : Option String → Page) :
    ∀ (fuel : Nat) (s : FetchState),
    (api (reqAfter s)).paging = some none →
    runF pid api fuel s = none := by
  intro fuel
  induction fuel with
  | zero => intro s _; rfl
  | succ fuel ih =>
    intro s h
    rw [runF]
    simp only [h]
    apply ih
    simpa [reqAfter, truthy] using h

/-! ## Claims -/

/-- C1 (counterexample): with one successful page containing one deal
matching the pipeline, followed by a failing request, get_pipeline_deals
returns the empty list — not the non-empty accumulated list from the
successful page that the claim demands. -/
theorem claim1_counterexample :
    Option.map fetchReturn (get_pipeline_deals "1"
        [ApiResponse.success ⟨[dealAcme], some (some "A")⟩, ApiResponse.failure]).2
      = some []
    ∧ (⟨[dealAcme], some (some "A")⟩ : Page).results.filter (matchesPipeline "1") = [dealAcme]
    ∧ ([dealAcme] : List Deal) ≠ ([] : List Deal) := by
  refine ⟨rfl, rfl, by simp⟩

/-- C1 (amended): when a GET request fails after any number of
successful cursored pages, get_pipeline_deals logs the error and
returns the EMPTY list — the accumulated deals are discarded — rather
than failing fatally. -/
theorem claim1_amended :
    ∀ (pid : String) (front : List Page) (rest : List ApiResponse) (s : FetchState),
    (∀ p ∈ front, p.paging ≠ none) →
    (fetchLoop pid (front.map ApiResponse.success ++ ApiResponse.failure :: rest) s).2
        = some FetchOutcome.failed
    ∧ fetchReturn FetchOutcome.failed = ([] : List Deal) := by
  intro pid front
  induction front with
  | nil => intro rest s _; exact ⟨rfl, rfl⟩
  | cons p front ih =>
    intro rest s hfront
    have hp : p.paging ≠ none := hfront p (List.mem_cons_self p front)
    rcases hpg : p.paging with _ | c
    · exact absurd hpg hp
    · refine ⟨?_, rfl⟩
      rw [List.map_cons, List.cons_append, fetchLoop]
      simp only [hpg]
      exact (ih rest _ (fun q hq => hfront q (List.mem_cons_of_mem p hq))).1

/-- C1 (witness): the amended claim at the concrete counterexample
trace. -/
theorem claim1_amended_witness :
    (fetchLoop "1" ([(⟨[dealAcme], some (some "A")⟩ : Page)].map ApiResponse.success
        ++ ApiResponse.failure :: []) initFS).2 = some FetchOutcome.failed
    ∧ fetchReturn FetchOutcome.failed = ([] : List Deal) :=
  claim1_amended "1" [⟨[dealAcme], some (some "A")⟩] [] initFS (by decide)

/-- C2 (code bug, evaluated): a pipelines-GET failure makes
get_pipelines raise SystemExit, and a workbook-save failure makes main
convert the OSError to SystemExit; in both cases the except-Exception
boundary of scheduled_job does not catch it and the error escapes,
terminating the scheduler loop.  Only a deal-fetch failure (third
conjunct) leaves the scheduler alive, because it is swallowed inside
get_pipeline_deals itself. -/
theorem claim2_eval :
    scheduled_job ⟨some "key", none, [], true⟩
        = some (Except.error (PyError.systemExit 1))
    ∧ scheduled_job ⟨some "key", some [⟨"1", "Sales"⟩],
        [ApiResponse.success ⟨[dealAcme], some (some "A")⟩, ApiResponse.success ⟨[], none⟩],
        false⟩ = some (Except.error (PyError.systemExit 1))
    ∧ scheduled_job ⟨some "key", some [⟨"1", "Sales"⟩], [ApiResponse.failure], true⟩
        = some (Except.ok ()) := by
  refine ⟨rfl, rfl, rfl⟩

/-- C3 (counterexample): the single request of a one-page run carries
the fixed properties string, which is the comma-join of SIX property
names, not five. -/
theorem claim3_counterexample :
    (get_pipeline_deals "p" [ApiResponse.success ⟨[], none⟩]).1 = [mkRequest none]
    ∧ (mkRequest none).properties = String.intercalate "," propertyNames
    ∧ propertyNames.length ≠ 5 := by
  exact ⟨rfl, rfl, by decide⟩

/-- C3 (amended): every GET request issued by get_pipeline_deals
carries a fixed page size of 100 and requests exactly six explicit
properties (the five display fields plus pipeline). -/
theorem claim3_amended :
    ∀ (pid : String) (rs : List ApiResponse) (s : FetchState) (r : Request),
    r ∈ (fetchLoop pid rs s).1 →
    r.limit = 100 ∧ r.properties = String.intercalate "," propertyNames
      ∧ propertyNames.length = 6 := by
  intro pid rs s r hr
  obtain ⟨pa, rfl⟩ := fetchLoop_requests pid rs s r hr
  exact ⟨rfl, rfl, rfl⟩

/-- C3 (witness): the amended claim at the request of a concrete
one-page run. -/
theorem claim3_amended_witness :
    (mkRequest none).limit = 100
    ∧ (mkRequest none).properties = String.intercalate "," propertyNames
    ∧ propertyNames.length = 6 :=
  claim3_amended "p" [ApiResponse.success ⟨[], none⟩] initFS (mkRequest none) (by decide)

/-- C4: on a trace of N pages in which each of the first N - 1 carries
a (non-empty) continuation cursor and the last carries none,
get_pipeline_deals issues exactly N requests — the first with no after
parameter, each later one carrying the cursor of the previous page —
and completes with exactly the concatenation, over all N pages, of the
deals whose pipeline property equals the target id. -/
theorem claim4 :
    ∀ (pid : String) (front : List Page) (last : Page),
    (∀ p ∈ front, ∃ c, p.paging = some (some c) ∧ c ≠ "") →
    last.paging = none →
    get_pipeline_deals pid ((front ++ [last]).map ApiResponse.success)
      = (mkRequest none :: front.map (fun p => mkRequest (pageAfter p)),
         some (FetchOutcome.completed
           (((front ++ [last]).map (fun p => p.results.filter (matchesPipeline pid))).flatten)))
    ∧ (mkRequest none :: front.map (fun p => mkRequest (pageAfter p))).length
        = ((front ++ [last]).map ApiResponse.success).length := by
  intro pid front last hfront hlast
  constructor
  · have h := fetchLoop_pages pid front last initFS hfront hlast
    simpa [get_pipeline_deals, initFS, reqAfter, truthy] using h
  · simp

/-- C4 (witness): a concrete two-page trace — the first page has cursor
"A" and one matching deal, the second is cursorless — yields exactly
two requests, the second carrying after = "A", and the one filtered
deal. -/
theorem claim4_witness :
    get_pipeline_deals "1"
        [ApiResponse.success ⟨[dealAcme], some (some "A")⟩, ApiResponse.success ⟨[], none⟩]
      = ([mkRequest none, mkRequest (some "A")], some (FetchOutcome.completed [dealAcme]))
    ∧ ([mkRequest none, mkRequest (some "A")] : List Request).length
      = ([ApiResponse.success (⟨[dealAcme], some (some "A")⟩ : Page),
          ApiResponse.success (⟨[], none⟩ : Page)] : List ApiResponse).length :=
  claim4 "1" [⟨[dealAcme], some (some "A")⟩] ⟨[], none⟩
    (by intro p hp; simp at hp; subst hp; exact ⟨"A", rfl, by decide⟩) rfl

/-- C5: the exported sheet has exactly one data row per input deal, in
exactly the input order: the rows after the header are the image of the
input list under dealRow, the row count is the input count plus the
header, and the data row at index i is the row of the deal at index i. -/
theorem claim5 : ∀ (pn : String) (deals : List Deal),
    (export_to_excel pn deals).rows.tail = deals.map dealRow
    ∧ (export_to_excel pn deals).rows.length = deals.length + 1
    ∧ ∀ i : Nat, (export_to_excel pn deals).rows[i + 1]? = Option.map dealRow deals[i]? := by
  intro pn deals
  refine ⟨rfl, by simp [export_rows], ?_⟩
  intro i
  rw [export_rows, List.getElem?_cons_succ, List.getElem?_map]

/-- C6: in the data row of any deal, the cell of each of the five
display fields is the literal "N/A" when the properties map lacks that
field, and the stored string value when it is present. -/
theorem claim6 : ∀ (pn : String) (deals : List Deal) (i : Nat) (d : Deal) (j : Nat) (k : String),
    deals[i]? = some d → fieldKeys[j]? = some k →
    ((d.properties.lookup k = none →
        ((export_to_excel pn deals).rows[i + 1]?).bind (fun r => r[j]?) = some "N/A")
     ∧ ∀ v : String, d.properties.lookup k = some v →
        ((export_to_excel pn deals).rows[i + 1]?).bind (fun r => r[j]?) = some v) := by
  intro pn deals i d j k hd hk
  have hrow : (export_to_excel pn deals).rows[i + 1]? = some (dealRow d) := by
    simp [export_rows, hd]
  have hcell : (dealRow d)[j]? = some ((d.properties.lookup k).getD "N/A") := by
    simp [dealRow, hk]
  constructor
  · intro hnone
    rw [hrow, Option.some_bind]
    simpa [hnone] using hcell
  · intro v hv
    rw [hrow, Option.some_bind]
    simpa [hv] using hcell

/-- C6 (witness): the sample deal lacks the amount field, and its
amount cell is the literal "N/A". -/
theorem claim6_witness :
    ((export_to_excel "P" [dealAcme]).rows[0 + 1]?).bind (fun r => r[1]?) = some "N/A" :=
  (claim6 "P" [dealAcme] 0 dealAcme 1 "amount" rfl rfl).1 rfl

/-- C7: the width assigned to each column of the exported sheet is
min of (the maximum rendered length over the header cell and every
data cell of that column, plus 2) and 50. -/
theorem claim7 : ∀ (pn : String) (deals : List Deal) (j : Nat) (w : Nat),
    (export_to_excel pn deals).colWidths[j]? = some w →
    w = min (((sheetHeaders.getD j "").length
              :: deals.map (fun d => ((dealRow d).getD j "").length)).foldl max 0 + 2) 50 := by
  intro pn deals j w h
  rw [export_colWidths, List.getElem?_map] at h
  by_cases hj : j < 5
  · rw [List.getElem?_range hj] at h
    simp only [Option.map_some'] at h
    obtain rfl : colWidth (sheetHeaders :: List.map dealRow deals) j = w := Option.some.inj h
    simp [colWidth, List.map_map]
    rfl
  · rw [List.getElem?_eq_none (by simpa using Nat.le_of_not_lt hj)] at h
    simp at h

set_option maxRecDepth 100000 in
/-- C7 (witness): the first column of the sheet for the sample deal —
header "Deal Name" of length 9, data cell "Acme" of length 4 — has
width 11 = min (9 + 2) 50. -/
theorem claim7_witness :
    (export_to_excel "P" [dealAcme]).colWidths[0]? = some 11
    ∧ 11 = min (((sheetHeaders.getD 0 "").length
              :: [dealAcme].map (fun d => ((dealRow d).getD 0 "").length)).foldl max 0 + 2) 50 :=
  ⟨rfl, claim7 "P" [dealAcme] 0 11 rfl⟩

/-- C8: the title of the exported sheet is the pipeline name truncated
to its first 31 characters, so it is always at most 31 characters
long. -/
theorem claim8 : ∀ (pn : String) (deals : List Deal),
    (export_to_excel pn deals).title = pn.take 31
    ∧ (export_to_excel pn deals).title.length ≤ 31 := by
  intro pn deals
  have ht : (export_to_excel pn deals).title = pn.take 31 := by
    simp only [export_to_excel]
  refine ⟨ht, ?_⟩
  rw [ht, String.take_eq]
  show (pn.data.take 31).length ≤ 31
  rw [List.length_take]
  omega

/-- C9: in the deterministic-API view, (1) whenever every response that
carries a paging-next entry supplies a non-empty after cursor, and the
response after some iteration n is cursorless, the loop finishes within
n + 1 iterations; and (2) if the response to the current request has a
paging-next entry whose after token is absent or null, the loop
re-issues the previous request unchanged and never finishes, however
much fuel it is given. -/
theorem claim9 : ∀ (pid : String) (api : Option String → Page) (s : FetchState),
    ((∀ (pa : Option String) (a : Option String),
        (api pa).paging = some a → ∃ c, a = some c ∧ c ≠ "") →
      ∀ n : Nat, (api (reqAfter (iterFS pid api n s))).paging = none →
        (runF pid api (n + 1) s).isSome = true)
    ∧ ((api (reqAfter s)).paging = some none →
        reqAfter (nextFS pid api s) = reqAfter s
        ∧ ∀ fuel : Nat, runF pid api fuel s = none) := by
  intro pid api s
  constructor
  · intro _ n h
    exact runF_terminates pid api n s h
  · intro h
    constructor
    · have hpa : pageAfter (api (reqAfter s)) = none := by simp [pageAfter, h]
      have hn : nextFS pid api s
          = ⟨reqAfter s, none,
             s.deals ++ (api (reqAfter s)).results.filter (matchesPipeline pid)⟩ := by
        simp only [nextFS]
        rw [hpa]
      rw [hn]
      rfl
    · intro fuel
      exact runF_stuck_aux pid api fuel s h

/-- C9 (witness): a server always answering without paging lets the
loop finish with fuel 1; a server always answering with a paging-next
entry whose after token is null keeps the loop running at fuel 3 (and
any other fuel). -/
theorem claim9_witness :
    (runF "p" (fun _ => (⟨[], none⟩ : Page)) 1 initFS).isSome = true
    ∧ runF "p" (fun _ => (⟨[], some none⟩ : Page)) 3 initFS = none := by
  constructor
  · exact (claim9 "p" (fun _ => (⟨[], none⟩ : Page)) initFS).1
      (by intro pa a h; simp at h) 0 rfl
  · exact ((claim9 "p" (fun _ => (⟨[], some none⟩ : Page)) initFS).2 rfl).2 3

/-- C10: when the completed deal fetch for the selected pipeline yields
the empty list, the body of main reports the no-deals message and does
not invoke the exporter — no sheet is produced and no file written. -/
theorem claim10 : ∀ (key : String) (p : Pipeline) (rest : List Pipeline)
    (rs : List ApiResponse) (saveOk : Bool) (out : FetchOutcome),
    (get_pipeline_deals p.id rs).2 = some out →
    fetchReturn out = [] →
    main_body ⟨some key, some (p :: rest), rs, saveOk⟩
        = some (Except.ok (MainOutcome.noDeals p.label))
    ∧ ∀ sh : Sheet, main_body ⟨some key, some (p :: rest), rs, saveOk⟩
        ≠ some (Except.ok (MainOutcome.exported sh)) := by
  intro key p rest rs saveOk out hout hret
  have hmb : main_body ⟨some key, some (p :: rest), rs, saveOk⟩
      = some (Except.ok (MainOutcome.noDeals p.label)) := by
    simp [main_body, get_pipelines, hout, hret]
  refine ⟨hmb, ?_⟩
  intro sh hcontra
  rw [hmb] at hcontra
  simp at hcontra

/-- C10 (witness): a pipeline whose single (cursorless) page carries no
matching deal makes main report no deals and export nothing. -/
theorem claim10_witness :
    ((get_pipeline_deals (Pipeline.mk "1" "Sales").id [ApiResponse.success ⟨[], none⟩]).2
        = some (FetchOutcome.completed [])
      ∧ fetchReturn (FetchOutcome.completed []) = ([] : List Deal))
    ∧ main_body ⟨some "k", some [Pipeline.mk "1" "Sales"], [ApiResponse.success ⟨[], none⟩], true⟩
        = some (Except.ok (MainOutcome.noDeals "Sales")) :=
  ⟨⟨rfl, rfl⟩,
    (claim10 "k" ⟨"1", "Sales"⟩ [] [ApiResponse.success ⟨[], none⟩] true
      (FetchOutcome.completed []) rfl rfl).1⟩
